import Mathlib

/-!
Shallow embedding of `ImageLocationFinder/ImageLocationFinder.py`.

Numeric EXIF values and decoded coordinates are modelled as exact
rationals (`ℚ`); the Python code computes with floats, but every claim
under scrutiny is about the exact arithmetic `d + m/60 + s/3600`, the
sign logic and error absorption, none of which depend on rounding.
Python exceptions that the source catches are modelled by `Option`:
a helper that "returns `None` on any failure" becomes a total Lean
function into `Option _`.
-/

/-- The fixed fallback string of `get_address`. -/
def ADDRESS_NOT_FOUND : String := "Address not found"

/-- `NO_GPS_REASON_TEXT` from the source (the fixed reason stored in an
`Unlocated` record). -/
def NO_GPS_REASON_TEXT : String :=
  "No GPS data found because:\n1) The sender stripped location data before sending, OR\n2) The camera’s location setting was OFF when the photo was taken."

/-- One component of an EXIF GPS triple, as `_to_float` sees it:
a plain numeric value, a ratio-like pair `(numerator, denominator)`,
or something neither (on which both `float(x)` and
`float(x[0]) / float(x[1])` raise). -/
inductive Comp
  | num (q : ℚ)
  | rational (a b : ℚ)
  | malformed
deriving DecidableEq

/-- `_to_float(x)` from the source:
`try: return float(x)` — a plain number is used as-is;
`except: try: return float(x[0]) / float(x[1])` — a ratio-like pair is
divided, where a zero denominator raises `ZeroDivisionError`;
`except: return None` — any failure (including the zero division and a
malformed value) yields `None`. -/
def _to_float : Comp → Option ℚ
  | Comp.num q => some q
  | Comp.rational a b => if b = 0 then none else some (a / b)
  | Comp.malformed => none

/-- `convert_to_degrees(value)` from the source: reads `value[0]`,
`value[1]`, `value[2]` (an `IndexError` on a short sequence is caught by
the surrounding `except` and yields `None`), converts each with
`_to_float`, returns `None` if any conversion failed, else
`d + m/60 + s/3600`. -/
def convert_to_degrees (value : List Comp) : Option ℚ :=
  match value[0]?, value[1]?, value[2]? with
  | some v0, some v1, some v2 =>
    match _to_float v0, _to_float v1, _to_float v2 with
    | some d, some m, some s => some (d + m / 60 + s / 3600)
    | _, _, _ => none
  | _, _, _ => none

/-- The GPS sub-dictionary of the EXIF tag mapping, restricted to the
four keys `get_lat_lon` reads. `none` models an absent key (a lookup
raises `KeyError` / `gps.get` returns the falsy `None`). A present
`GPSLatitude` / `GPSLongitude` value is a sequence of components; the
ref tags are strings. -/
structure GpsTags where
  gpsLatitude : Option (List Comp)
  gpsLongitude : Option (List Comp)
  gpsLatitudeRef : Option String
  gpsLongitudeRef : Option String
deriving DecidableEq

/-- The resolved EXIF mapping as far as `get_lat_lon` uses it:
`exif.get("GPSInfo") or {}` — `none` covers both an absent `GPSInfo`
key and a falsy (empty) one. -/
structure ExifData where
  gpsInfo : Option GpsTags
deriving DecidableEq

/-- The empty GPS dictionary `{}`. -/
def emptyGps : GpsTags := ⟨none, none, none, none⟩

/-- The Python condition
`gps.get(ref_key) and gps[ref_key] != positive`:
the ref must be present and truthy (a present empty string is falsy)
and differ from the positive hemisphere letter. -/
def ref_negates : Option String → String → Bool
  | none, _ => false
  | some s, pos => !(s = "") && !(s = pos)

/-- `get_lat_lon(exif)` from the source: takes the GPS sub-dictionary
(`{}` when absent or falsy), decodes both triples (a missing key's
`KeyError` is caught and yields `None`), returns `None` if either
decode failed, then negates latitude when `GPSLatitudeRef` is truthy
and not `"N"`, and longitude when `GPSLongitudeRef` is truthy and not
`"E"`. -/
def get_lat_lon (exif : ExifData) : Option (ℚ × ℚ) :=
  let gps := exif.gpsInfo.getD emptyGps
  match gps.gpsLatitude, gps.gpsLongitude with
  | some latV, some lonV =>
    match convert_to_degrees latV, convert_to_degrees lonV with
    | some lat, some lon =>
      let lat' := if ref_negates gps.gpsLatitudeRef "N" then -lat else lat
      let lon' := if ref_negates gps.gpsLongitudeRef "E" then -lon else lon
      some (lat', lon')
    | _, _ => none
  | _, _ => none

/-- The body of the HTTP reply, once received: either `r.json()` raises
(unparseable body, or a body on which `.get` raises), or it parses to
an object whose `display_name` field is the given optional string. -/
inductive Body
  | parseError
  | fields (displayName : Option String)
deriving DecidableEq

/-- The outcome of `requests.get` in `get_address`: either the request
itself raises (network error, timeout), or a reply with a status code
and a body arrives. -/
inductive GeoResponse
  | netError
  | reply (status : Nat) (body : Body)
deriving DecidableEq

/-- `get_address(lat, lon)` from the source, as a function of the
endpoint's behaviour (the coordinates only parametrise the request and
do not influence the control flow): on status 200 it parses the body
and returns `data.get("display_name", "Address not found")`; on any
other status it returns the fallback; any exception (network failure,
JSON parse error) is caught and yields the fallback. -/
def get_address (resp : GeoResponse) : String :=
  match resp with
  | GeoResponse.netError => ADDRESS_NOT_FOUND
  | GeoResponse.reply status body =>
    if status = 200 then
      match body with
      | Body.parseError => ADDRESS_NOT_FOUND
      | Body.fields d => d.getD ADDRESS_NOT_FOUND
    else ADDRESS_NOT_FOUND

/-- One history entry, the two dictionary shapes `upload_image` builds:
`{"status": "ok", "name", "path", "lat", "lon", "address"}` and
`{"status": "no_gps", "name", "path", "reason"}`. Record equality is
Python dict equality (same keys and equal values), which is exactly
structural equality of this type. -/
inductive Record
  | located (name path : String) (lat lon : ℚ) (address : String)
  | unlocated (name path reason : String)
deriving DecidableEq

/-- The `name` entry of a record dictionary. -/
def Record.name : Record → String
  | Record.located n _ _ _ _ => n
  | Record.unlocated n _ _ => n

/-- The `path` entry of a record dictionary. -/
def Record.path : Record → String
  | Record.located _ p _ _ _ => p
  | Record.unlocated _ p _ => p

/-- A parsed JSON document as Python returns it from `json.load`:
either the record-array shape this program writes, or any other JSON
value (a number, an object, an array of non-records, ...) — Python is
untyped and `load_history` does not validate the parsed value. -/
inductive PyVal
  | records (l : List Record)
  | otherJson
deriving DecidableEq

/-- The state of the persisted `history.json` document: missing file,
a file whose content makes `json.load` raise, or a file parsing to a
JSON value. -/
inductive JsonDoc
  | absent
  | unparseable
  | content (v : PyVal)
deriving DecidableEq

/-- `load_history()` from the source: if the file does not exist,
return `[]`; if `json.load` raises, return `[]`; otherwise return the
parsed value as-is (no validation). -/
def load_history : JsonDoc → PyVal
  | JsonDoc.absent => PyVal.records []
  | JsonDoc.unparseable => PyVal.records []
  | JsonDoc.content v => v

/-- The program state the history operations touch: the in-memory
global `history` list and the persisted document. -/
structure Store where
  history : List Record
  disk : JsonDoc
deriving DecidableEq

/-- `save_history()` from the source: `json.dump(history, f, ...)`
overwrites the document with the full in-memory sequence. At the
parsed-document level the written file is exactly the record array
(Python's `json` round-trips these strings and numbers exactly). -/
def save_history (s : Store) : Store :=
  { s with disk := JsonDoc.content (PyVal.records s.history) }

/-- `history.append(item)` followed by `save_history()`, the appending
half of `upload_image`. -/
def append_record (s : Store) (r : Record) : Store :=
  save_history { s with history := s.history ++ [r] }

/-- Python `list.remove(x)`: remove the first element equal to `x`;
`none` models the `ValueError` raised when no element matches. -/
def list_remove (l : List Record) (r : Record) : Option (List Record) :=
  match l with
  | [] => none
  | x :: xs => if x = r then some xs else (list_remove xs r).map (fun t => x :: t)

/-- `delete_entry(item)` from the source, with the user's confirmation
answer made explicit: on confirmation, `history.remove(item)` then
`save_history()`; the `ValueError` of a missing item is caught
(`except ValueError: pass`), so neither the list nor the document
changes. -/
def delete_entry (s : Store) (r : Record) (confirmed : Bool) : Store :=
  if confirmed then
    match list_remove s.history r with
    | some h => save_history { s with history := h }
    | none => s
  else s

/-- `os.path.basename(file_path)` on a POSIX path: the suffix after
the last separator (empty when the path ends in a separator). -/
def basename (s : String) : String :=
  String.mk (s.data.foldl (fun acc c => if c = '/' then [] else acc ++ [c]) [])

/-- `upload_image()` from the source, with its environment made
explicit: the path the file dialog returned (`""` when cancelled), the
EXIF mapping `extract_exif` produced for that file, and the geocode
endpoint's behaviour. An empty path returns without touching the
history. Otherwise a `no_gps` record (reason `NO_GPS_REASON_TEXT`) or
an `ok` record (coordinates from `get_lat_lon`, address from
`get_address`) is appended and the history saved. -/
def upload_image (file_path : String) (exif : ExifData) (resp : GeoResponse)
    (s : Store) : Store :=
  if file_path = "" then s
  else
    match get_lat_lon exif with
    | none =>
      append_record s (Record.unlocated (basename file_path) file_path NO_GPS_REASON_TEXT)
    | some (lat, lon) =>
      append_record s
        (Record.located (basename file_path) file_path lat lon (get_address resp))

/-- A hexadecimal digit, for `\u00XX` escapes. -/
def hexDigit (n : Nat) : Char :=
  if n < 10 then Char.ofNat (48 + n) else Char.ofNat (87 + n)

/-- JSON string escaping as `json.dump(..., ensure_ascii=False)` does
it: quote, backslash and the named control escapes become two-character
escapes, the remaining control characters become `\u00XX`, everything
else (including non-ASCII) passes through unchanged. -/
def escape_char (c : Char) : String :=
  if c = '"' then "\\\""
  else if c = '\\' then "\\\\"
  else if c = '\n' then "\\n"
  else if c = '\t' then "\\t"
  else if c = '\r' then "\\r"
  else if c.toNat < 32 then
    "\\u00" ++ String.mk [hexDigit (c.toNat / 16), hexDigit (c.toNat % 16)]
  else String.mk [c]

/-- A JSON string literal: the escaped text between double quotes. -/
def jstr (s : String) : String :=
  "\"" ++ String.join (s.data.map escape_char) ++ "\""

/-- The serialization of one coordinate. The exact decimal float
rendering of CPython is not modelled; what matters for the claims is
that the rendering is a pure function of the value. -/
def dump_num (q : ℚ) : String :=
  toString q

/-- One record object as `json.dump(..., indent=2)` lays it out inside
the array: keys in the insertion order of the dict literals in
`upload_image`, four-space-indented members, closing brace at two
spaces. -/
def dump_record (r : Record) : String :=
  match r with
  | Record.located n p lat lon addr =>
    "\x7b\n    \"status\": \"ok\",\n    \"name\": " ++ jstr n
      ++ ",\n    \"path\": " ++ jstr p
      ++ ",\n    \"lat\": " ++ dump_num lat
      ++ ",\n    \"lon\": " ++ dump_num lon
      ++ ",\n    \"address\": " ++ jstr addr ++ "\n  \x7d"
  | Record.unlocated n p reason =>
    "\x7b\n    \"status\": \"no_gps\",\n    \"name\": " ++ jstr n
      ++ ",\n    \"path\": " ++ jstr p
      ++ ",\n    \"reason\": " ++ jstr reason ++ "\n  \x7d"

/-- The whole document `json.dump(history, f, ensure_ascii=False,
indent=2)` writes: the array of record objects in list order. -/
def json_dump (l : List Record) : String :=
  match l with
  | [] => "[]"
  | _ =>
    "[\n  " ++ String.intercalate ",\n  " (l.map dump_record) ++ "\n]"

/-- The bytes one call to `save_history` writes, as a function of the
state at the time of the call. -/
def save_history_writes (s : Store) : String :=
  json_dump s.history

/-- Helper: `convert_to_degrees` on a three-component list whose
components all convert. -/
theorem convert_to_degrees_eq (c0 c1 c2 : Comp) (d m s : ℚ)
    (h0 : _to_float c0 = some d) (h1 : _to_float c1 = some m)
    (h2 : _to_float c2 = some s) :
    convert_to_degrees [c0, c1, c2] = some (d + m / 60 + s / 3600) := by
  simp [convert_to_degrees, h0, h1, h2]

/-- C1: for a GPS tag mapping whose `GPSLatitude` and `GPSLongitude`
triples have components converting to the non-negative values
`(d, m, s)` and `(d', m', s')`, `get_lat_lon` with refs `"N"`/`"E"`
returns `(d + m/60 + s/3600, d' + m'/60 + s'/3600)` with positive
sign, and with refs `"S"`/`"W"` the same magnitudes negated. -/
theorem decode_hemisphere_signs (c0 c1 c2 e0 e1 e2 : Comp) (d m s d' m' s' : ℚ)
    (h0 : _to_float c0 = some d) (h1 : _to_float c1 = some m)
    (h2 : _to_float c2 = some s) (h3 : _to_float e0 = some d')
    (h4 : _to_float e1 = some m') (h5 : _to_float e2 = some s')
    (hd : 0 ≤ d) (hm : 0 ≤ m) (hs : 0 ≤ s)
    (hd' : 0 ≤ d') (hm' : 0 ≤ m') (hs' : 0 ≤ s') :
    get_lat_lon ⟨some ⟨some [c0, c1, c2], some [e0, e1, e2], some "N", some "E"⟩⟩
        = some (d + m / 60 + s / 3600, d' + m' / 60 + s' / 3600) ∧
    0 ≤ d + m / 60 + s / 3600 ∧ 0 ≤ d' + m' / 60 + s' / 3600 ∧
    get_lat_lon ⟨some ⟨some [c0, c1, c2], some [e0, e1, e2], some "S", some "W"⟩⟩
        = some (-(d + m / 60 + s / 3600), -(d' + m' / 60 + s' / 3600)) := by
  refine ⟨?_, ?_, ?_, ?_⟩
  · simp [get_lat_lon, convert_to_degrees, ref_negates, h0, h1, h2, h3, h4, h5]
  · have h60 : (0 : ℚ) ≤ 60 := by norm_num
    have h3600 : (0 : ℚ) ≤ 3600 := by norm_num
    exact add_nonneg (add_nonneg hd (div_nonneg hm h60)) (div_nonneg hs h3600)
  · have h60 : (0 : ℚ) ≤ 60 := by norm_num
    have h3600 : (0 : ℚ) ≤ 3600 := by norm_num
    exact add_nonneg (add_nonneg hd' (div_nonneg hm' h60)) (div_nonneg hs' h3600)
  · simp [get_lat_lon, convert_to_degrees, ref_negates, h0, h1, h2, h3, h4, h5]

/-- Witness for C1 at the spec's example triple (40, 26, 46) /
(79, 58, 36). -/
theorem decode_hemisphere_signs_witness :
    get_lat_lon ⟨some ⟨some [Comp.num 40, Comp.num 26, Comp.num 46],
        some [Comp.num 79, Comp.num 58, Comp.num 36], some "N", some "E"⟩⟩
        = some (40 + 26 / 60 + 46 / 3600, 79 + 58 / 60 + 36 / 3600) ∧
    (0 : ℚ) ≤ 40 + 26 / 60 + 46 / 3600 ∧ (0 : ℚ) ≤ 79 + 58 / 60 + 36 / 3600 ∧
    get_lat_lon ⟨some ⟨some [Comp.num 40, Comp.num 26, Comp.num 46],
        some [Comp.num 79, Comp.num 58, Comp.num 36], some "S", some "W"⟩⟩
        = some (-(40 + 26 / 60 + 46 / 3600), -(79 + 58 / 60 + 36 / 3600)) :=
  decode_hemisphere_signs (Comp.num 40) (Comp.num 26) (Comp.num 46)
    (Comp.num 79) (Comp.num 58) (Comp.num 36) 40 26 46 79 58 36
    rfl rfl rfl rfl rfl rfl
    (by norm_num) (by norm_num) (by norm_num)
    (by norm_num) (by norm_num) (by norm_num)

/-- Helper: `convert_to_degrees` fails on a triple any of whose three
components fails to convert. -/
theorem convert_to_degrees_eq_none (c0 c1 c2 : Comp)
    (h : _to_float c0 = none ∨ _to_float c1 = none ∨ _to_float c2 = none) :
    convert_to_degrees [c0, c1, c2] = none := by
  rcases h with h | h | h <;>
    · cases h0 : _to_float c0 <;> cases h1 : _to_float c1 <;>
        cases h2 : _to_float c2 <;>
      simp_all [convert_to_degrees]

/-- Helper: `get_lat_lon` returns `none` whenever the latitude side is
missing or fails to decode. -/
theorem get_lat_lon_none_of_lat (g : GpsTags)
    (h : g.gpsLatitude = none ∨
      ∃ l, g.gpsLatitude = some l ∧ convert_to_degrees l = none) :
    get_lat_lon ⟨some g⟩ = none := by
  rcases h with h | ⟨l, hl, hc⟩
  · cases hlon : g.gpsLongitude <;> simp [get_lat_lon, h, hlon]
  · cases hlon : g.gpsLongitude <;> simp [get_lat_lon, hl, hc, hlon]

/-- Helper: `get_lat_lon` returns `none` whenever the longitude side is
missing or fails to decode. -/
theorem get_lat_lon_none_of_lon (g : GpsTags)
    (h : g.gpsLongitude = none ∨
      ∃ l, g.gpsLongitude = some l ∧ convert_to_degrees l = none) :
    get_lat_lon ⟨some g⟩ = none := by
  rcases h with h | ⟨l, hl, hc⟩ <;>
    · cases hlat : g.gpsLatitude with
      | none => simp [get_lat_lon, hlat]
      | some lv =>
        cases hcv : convert_to_degrees lv <;>
          simp_all [get_lat_lon]

/-- C4: for a GPS tag mapping in which the `GPSLatitude` or
`GPSLongitude` triple is missing, or some component of a present
triple is malformed (its conversion yields no value), `get_lat_lon`
returns `none` ("absent"); being a total Lean function, it raises
nothing. -/
theorem decode_absent_on_missing_or_malformed (g : GpsTags)
    (h : g.gpsLatitude = none ∨ g.gpsLongitude = none ∨
      (∃ c0 c1 c2, g.gpsLatitude = some [c0, c1, c2] ∧
        (_to_float c0 = none ∨ _to_float c1 = none ∨ _to_float c2 = none)) ∨
      (∃ c0 c1 c2, g.gpsLongitude = some [c0, c1, c2] ∧
        (_to_float c0 = none ∨ _to_float c1 = none ∨ _to_float c2 = none))) :
    get_lat_lon ⟨some g⟩ = none := by
  rcases h with h | h | ⟨c0, c1, c2, hl, hc⟩ | ⟨c0, c1, c2, hl, hc⟩
  · exact get_lat_lon_none_of_lat g (Or.inl h)
  · exact get_lat_lon_none_of_lon g (Or.inl h)
  · exact get_lat_lon_none_of_lat g
      (Or.inr ⟨_, hl, convert_to_degrees_eq_none c0 c1 c2 hc⟩)
  · exact get_lat_lon_none_of_lon g
      (Or.inr ⟨_, hl, convert_to_degrees_eq_none c0 c1 c2 hc⟩)

/-- Witness for C4: a mapping whose latitude triple has a malformed
first component decodes to `none`. -/
theorem decode_absent_on_missing_or_malformed_witness :
    get_lat_lon ⟨some ⟨some [Comp.malformed, Comp.num 0, Comp.num 0],
        some [Comp.num 1, Comp.num 2, Comp.num 3], none, none⟩⟩ = none :=
  decode_absent_on_missing_or_malformed
    ⟨some [Comp.malformed, Comp.num 0, Comp.num 0],
      some [Comp.num 1, Comp.num 2, Comp.num 3], none, none⟩
    (Or.inr (Or.inr (Or.inl ⟨Comp.malformed, Comp.num 0, Comp.num 0, rfl,
      Or.inl rfl⟩)))

/-- C10: a ratio-like component with denominator zero converts to no
value (`ZeroDivisionError` is caught inside `_to_float`, mirrored here
by the explicit zero test), and a coordinate whose triple contains such
a component makes the whole decode return `none`. -/
theorem zero_denominator_absorbed (g : GpsTags) (a : ℚ) (c0 c1 c2 : Comp)
    (hl : g.gpsLatitude = some [c0, c1, c2] ∨ g.gpsLongitude = some [c0, c1, c2])
    (hc : c0 = Comp.rational a 0 ∨ c1 = Comp.rational a 0 ∨ c2 = Comp.rational a 0) :
    _to_float (Comp.rational a 0) = none ∧ get_lat_lon ⟨some g⟩ = none := by
  have hz : _to_float (Comp.rational a 0) = none := by simp [_to_float]
  refine ⟨hz, ?_⟩
  have hcn : _to_float c0 = none ∨ _to_float c1 = none ∨ _to_float c2 = none := by
    rcases hc with h | h | h
    · exact Or.inl (h ▸ hz)
    · exact Or.inr (Or.inl (h ▸ hz))
    · exact Or.inr (Or.inr (h ▸ hz))
  have hconv := convert_to_degrees_eq_none c0 c1 c2 hcn
  rcases hl with h | h
  · exact get_lat_lon_none_of_lat g (Or.inr ⟨_, h, hconv⟩)
  · exact get_lat_lon_none_of_lon g (Or.inr ⟨_, h, hconv⟩)

/-- Witness for C10: latitude triple starting with the ratio `1/0`. -/
theorem zero_denominator_absorbed_witness :
    _to_float (Comp.rational 1 0) = none ∧
    get_lat_lon ⟨some ⟨some [Comp.rational 1 0, Comp.num 0, Comp.num 0],
        some [Comp.num 1, Comp.num 2, Comp.num 3], none, none⟩⟩ = none :=
  zero_denominator_absorbed
    ⟨some [Comp.rational 1 0, Comp.num 0, Comp.num 0],
      some [Comp.num 1, Comp.num 2, Comp.num 3], none, none⟩
    1 (Comp.rational 1 0) (Comp.num 0) (Comp.num 0)
    (Or.inl rfl) (Or.inl rfl)

/-- C5: `get_address` is a total function into `String` (it never
raises) and returns the `display_name` field of a parsed 200 response,
and exactly `"Address not found"` on a network error, a non-200
status, an unparseable body, or a body without `display_name`. -/
theorem get_address_contract (status : Nat) (b : Body) (d : String)
    (hs : status ≠ 200) :
    get_address GeoResponse.netError = ADDRESS_NOT_FOUND ∧
    get_address (GeoResponse.reply status b) = ADDRESS_NOT_FOUND ∧
    get_address (GeoResponse.reply 200 Body.parseError) = ADDRESS_NOT_FOUND ∧
    get_address (GeoResponse.reply 200 (Body.fields none)) = ADDRESS_NOT_FOUND ∧
    get_address (GeoResponse.reply 200 (Body.fields (some d))) = d := by
  refine ⟨rfl, ?_, rfl, rfl, rfl⟩
  simp [get_address, hs]

/-- Witness for C5 at status 500 (the spec's mocked endpoint). -/
theorem get_address_contract_witness :
    get_address GeoResponse.netError = ADDRESS_NOT_FOUND ∧
    get_address (GeoResponse.reply 500 Body.parseError) = ADDRESS_NOT_FOUND ∧
    get_address (GeoResponse.reply 200 Body.parseError) = ADDRESS_NOT_FOUND ∧
    get_address (GeoResponse.reply 200 (Body.fields none)) = ADDRESS_NOT_FOUND ∧
    get_address (GeoResponse.reply 200 (Body.fields (some "Pittsburgh, PA")))
        = "Pittsburgh, PA" :=
  get_address_contract 500 Body.parseError "Pittsburgh, PA" (by decide)

/-- C9: two `save_history` calls with no mutation in between write
byte-identical documents (the write is a pure function of the
unchanged, order-preserved history list). -/
theorem save_history_idempotent (s : Store) :
    save_history_writes (save_history s) = save_history_writes s ∧
    (save_history (save_history s)).disk = (save_history s).disk ∧
    (save_history s).history = s.history :=
  ⟨rfl, rfl, rfl⟩

/-- Helper: Python's `list.remove` raises (`none`) exactly when the
element does not occur. -/
theorem list_remove_eq_none (l : List Record) (r : Record) :
    list_remove l r = none ↔ r ∉ l := by
  induction l with
  | nil => simp [list_remove]
  | cons x xs ih =>
    by_cases hx : x = r
    · simp [list_remove, hx]
    · simp [list_remove, hx, ih, Option.map_eq_none', Ne.symm hx]

/-- Helper: on a list containing `r`, `list_remove` drops exactly the
first occurrence. -/
theorem list_remove_first (l : List Record) (r : Record) (h : r ∈ l) :
    ∃ l1 l2, l = l1 ++ r :: l2 ∧ r ∉ l1 ∧ list_remove l r = some (l1 ++ l2) := by
  induction l with
  | nil => cases h
  | cons x xs ih =>
    by_cases hx : x = r
    · exact ⟨[], xs, by rw [hx]; rfl, by simp, by simp [list_remove, hx]⟩
    · have hmem : r ∈ xs := by
        rcases List.mem_cons.mp h with h1 | h1
        · exact absurd h1.symm hx
        · exact h1
      obtain ⟨l1, l2, heq, hnot, hrm⟩ := ih hmem
      refine ⟨x :: l1, l2, by simp [heq], ?_, by simp [list_remove, hx, hrm]⟩
      simp [hnot, Ne.symm hx]

/-- C8: confirmed `delete_entry` removes the first structurally-equal
match from the in-memory list and persists the result; when no match
exists the `ValueError` is caught locally and both the list and the
document are left unchanged. -/
theorem delete_entry_contract (s : Store) (r : Record) :
    (r ∉ s.history → delete_entry s r true = s) ∧
    (r ∈ s.history → ∃ l1 l2, s.history = l1 ++ r :: l2 ∧ r ∉ l1 ∧
      (delete_entry s r true).history = l1 ++ l2 ∧
      (delete_entry s r true).disk = JsonDoc.content (PyVal.records (l1 ++ l2))) := by
  constructor
  · intro h
    have hn := (list_remove_eq_none s.history r).mpr h
    simp [delete_entry, hn]
  · intro h
    obtain ⟨l1, l2, heq, hnot, hrm⟩ := list_remove_first s.history r h
    exact ⟨l1, l2, heq, hnot, by simp [delete_entry, hrm, save_history],
      by simp [delete_entry, hrm, save_history]⟩

/-- Witness for C8: deleting the single record of a one-element
history empties both the list and the document. -/
theorem delete_entry_contract_witness :
    ∃ l1 l2,
      ([Record.located "a.jpg" "/p/a.jpg" 1 2 "addr"] : List Record)
          = l1 ++ Record.located "a.jpg" "/p/a.jpg" 1 2 "addr" :: l2 ∧
      Record.located "a.jpg" "/p/a.jpg" 1 2 "addr" ∉ l1 ∧
      (delete_entry ⟨[Record.located "a.jpg" "/p/a.jpg" 1 2 "addr"],
          JsonDoc.content (PyVal.records [Record.located "a.jpg" "/p/a.jpg" 1 2 "addr"])⟩
        (Record.located "a.jpg" "/p/a.jpg" 1 2 "addr") true).history = l1 ++ l2 ∧
      (delete_entry ⟨[Record.located "a.jpg" "/p/a.jpg" 1 2 "addr"],
          JsonDoc.content (PyVal.records [Record.located "a.jpg" "/p/a.jpg" 1 2 "addr"])⟩
        (Record.located "a.jpg" "/p/a.jpg" 1 2 "addr") true).disk
          = JsonDoc.content (PyVal.records (l1 ++ l2)) :=
  (delete_entry_contract
      ⟨[Record.located "a.jpg" "/p/a.jpg" 1 2 "addr"],
        JsonDoc.content (PyVal.records [Record.located "a.jpg" "/p/a.jpg" 1 2 "addr"])⟩
      (Record.located "a.jpg" "/p/a.jpg" 1 2 "addr")).2
    (by simp)

/-- C6 as amended: after `append_record` a fresh load of the document
yields the saved sequence, whose last element is the appended record;
after `delete_entry` of a present record, a fresh load yields the
sequence with exactly the first occurrence removed (one fewer
occurrence in total), which is free of `r` only when `r` occurred
exactly once. -/
theorem history_roundtrip (s : Store) (r : Record) :
    (load_history (append_record s r).disk = PyVal.records (s.history ++ [r]) ∧
      (s.history ++ [r]).getLast? = some r) ∧
    (r ∈ s.history → ∃ l1 l2, s.history = l1 ++ r :: l2 ∧ r ∉ l1 ∧
      load_history (delete_entry s r true).disk = PyVal.records (l1 ++ l2) ∧
      (l1 ++ l2).count r + 1 = s.history.count r) := by
  refine ⟨⟨rfl, by simp⟩, fun h => ?_⟩
  obtain ⟨l1, l2, heq, hnot, hrm⟩ := list_remove_first s.history r h
  refine ⟨l1, l2, heq, hnot,
    by simp [delete_entry, hrm, save_history, load_history], ?_⟩
  rw [heq]
  simp [List.count_append, List.count_cons]
  ring

/-- Witness for C6: a one-element history; deleting its record leaves
a loadable empty sequence. -/
theorem history_roundtrip_witness :
    (load_history (append_record
          ⟨[Record.unlocated "b.png" "/q/b.png" "why"],
            JsonDoc.content (PyVal.records [Record.unlocated "b.png" "/q/b.png" "why"])⟩
          (Record.unlocated "b.png" "/q/b.png" "why")).disk
        = PyVal.records ([Record.unlocated "b.png" "/q/b.png" "why"]
            ++ [Record.unlocated "b.png" "/q/b.png" "why"]) ∧
      (([Record.unlocated "b.png" "/q/b.png" "why"] : List Record)
          ++ [Record.unlocated "b.png" "/q/b.png" "why"]).getLast?
        = some (Record.unlocated "b.png" "/q/b.png" "why")) ∧
    ∃ l1 l2, ([Record.unlocated "b.png" "/q/b.png" "why"] : List Record)
        = l1 ++ Record.unlocated "b.png" "/q/b.png" "why" :: l2 ∧
      Record.unlocated "b.png" "/q/b.png" "why" ∉ l1 ∧
      load_history (delete_entry
          ⟨[Record.unlocated "b.png" "/q/b.png" "why"],
            JsonDoc.content (PyVal.records [Record.unlocated "b.png" "/q/b.png" "why"])⟩
          (Record.unlocated "b.png" "/q/b.png" "why") true).disk
        = PyVal.records (l1 ++ l2) ∧
      (l1 ++ l2).count (Record.unlocated "b.png" "/q/b.png" "why") + 1
        = ([Record.unlocated "b.png" "/q/b.png" "why"] : List Record).count
            (Record.unlocated "b.png" "/q/b.png" "why") :=
  ⟨(history_roundtrip
      ⟨[Record.unlocated "b.png" "/q/b.png" "why"],
        JsonDoc.content (PyVal.records [Record.unlocated "b.png" "/q/b.png" "why"])⟩
      (Record.unlocated "b.png" "/q/b.png" "why")).1,
    (history_roundtrip
      ⟨[Record.unlocated "b.png" "/q/b.png" "why"],
        JsonDoc.content (PyVal.records [Record.unlocated "b.png" "/q/b.png" "why"])⟩
      (Record.unlocated "b.png" "/q/b.png" "why")).2 (by simp)⟩

/-- Counterexample to C6 as stated: with the duplicate history
`[r, r]` (the spec allows duplicates: "no deduplication"), removing
`r` and loading afresh yields `[r]`, which still contains `r`. -/
theorem history_roundtrip_cex :
    load_history (delete_entry
        ⟨[Record.unlocated "c" "/c" "t", Record.unlocated "c" "/c" "t"],
          JsonDoc.content (PyVal.records
            [Record.unlocated "c" "/c" "t", Record.unlocated "c" "/c" "t"])⟩
        (Record.unlocated "c" "/c" "t") true).disk
      = PyVal.records [Record.unlocated "c" "/c" "t"] ∧
    Record.unlocated "c" "/c" "t" ∈ [Record.unlocated "c" "/c" "t"] := by
  constructor
  · simp [delete_entry, list_remove, save_history, load_history]
  · simp

/-- C7 as amended: `load_history` returns the empty sequence when the
document is missing or unparseable, and otherwise returns the parsed
content unvalidated — which is the stored sequence whenever the
document is a record array, as every document written by
`save_history` is. -/
theorem load_history_contract (v : PyVal) (l : List Record) :
    load_history JsonDoc.absent = PyVal.records [] ∧
    load_history JsonDoc.unparseable = PyVal.records [] ∧
    load_history (JsonDoc.content (PyVal.records l)) = PyVal.records l ∧
    load_history (JsonDoc.content v) = v :=
  ⟨rfl, rfl, rfl, rfl⟩

/-- Counterexample to C7 as stated: an existing document holding valid
JSON that is not a record array (say, a bare number) is passed through
by `load_history` as-is — it does not come back as a sequence of
Records. -/
theorem load_history_cex :
    load_history (JsonDoc.content PyVal.otherJson) = PyVal.otherJson ∧
    ¬ ∃ l : List Record,
        load_history (JsonDoc.content PyVal.otherJson) = PyVal.records l := by
  refine ⟨rfl, ?_⟩
  rintro ⟨l, h⟩
  simp [load_history] at h

/-- Helper: the source's truthiness test, propositionally: the ref
negates exactly when it is present, non-empty and differs from the
positive hemisphere letter. -/
theorem ref_negates_iff (r : Option String) (pos : String) :
    ref_negates r pos = true ↔ ∃ s, r = some s ∧ s ≠ "" ∧ s ≠ pos := by
  cases r <;> simp [ref_negates]

/-- Helper: when the ref is absent, empty or equal to the positive
letter, it does not negate. -/
theorem ref_negates_false (r : Option String) (pos : String)
    (h : r = none ∨ r = some "" ∨ r = some pos) :
    ref_negates r pos = false := by
  rcases h with h | h | h <;> simp [ref_negates, h]

/-- C3 as amended: when both triples decode, the latitude is negated
exactly when `GPSLatitudeRef` is present, non-empty and not `"N"` (and
likewise longitude with `"E"`); an absent ref — and equally a present
but empty one, which Python's truthiness test treats the same — leaves
the sign unchanged. -/
theorem decode_sign_policy (g : GpsTags) (lv lov : List Comp) (a b : ℚ)
    (hla : g.gpsLatitude = some lv) (hca : convert_to_degrees lv = some a)
    (hlo : g.gpsLongitude = some lov) (hco : convert_to_degrees lov = some b) :
    ∃ la lo, get_lat_lon ⟨some g⟩ = some (la, lo) ∧
      ((∃ r, g.gpsLatitudeRef = some r ∧ r ≠ "" ∧ r ≠ "N") → la = -a) ∧
      ((g.gpsLatitudeRef = none ∨ g.gpsLatitudeRef = some "" ∨
          g.gpsLatitudeRef = some "N") → la = a) ∧
      ((∃ r, g.gpsLongitudeRef = some r ∧ r ≠ "" ∧ r ≠ "E") → lo = -b) ∧
      ((g.gpsLongitudeRef = none ∨ g.gpsLongitudeRef = some "" ∨
          g.gpsLongitudeRef = some "E") → lo = b) := by
  refine ⟨if ref_negates g.gpsLatitudeRef "N" then -a else a,
    if ref_negates g.gpsLongitudeRef "E" then -b else b,
    by simp [get_lat_lon, hla, hca, hlo, hco], ?_, ?_, ?_, ?_⟩
  · intro h
    rw [if_pos ((ref_negates_iff g.gpsLatitudeRef "N").mpr h)]
  · intro h
    rw [ref_negates_false g.gpsLatitudeRef "N" h]
    simp
  · intro h
    rw [if_pos ((ref_negates_iff g.gpsLongitudeRef "E").mpr h)]
  · intro h
    rw [ref_negates_false g.gpsLongitudeRef "E" h]
    simp

/-- Witness for C3 at refs `"S"` (negates) and absent (unchanged). -/
theorem decode_sign_policy_witness :
    ∃ la lo,
      get_lat_lon ⟨some ⟨some [Comp.num 1, Comp.num 0, Comp.num 0],
          some [Comp.num 2, Comp.num 0, Comp.num 0], some "S", none⟩⟩
        = some (la, lo) ∧
      ((∃ r, (some "S" : Option String) = some r ∧ r ≠ "" ∧ r ≠ "N")
        → la = -(1 + 0 / 60 + 0 / 3600)) ∧
      (((some "S" : Option String) = none ∨ (some "S" : Option String) = some ""
          ∨ (some "S" : Option String) = some "N")
        → la = 1 + 0 / 60 + 0 / 3600) ∧
      ((∃ r, (none : Option String) = some r ∧ r ≠ "" ∧ r ≠ "E")
        → lo = -(2 + 0 / 60 + 0 / 3600)) ∧
      (((none : Option String) = none ∨ (none : Option String) = some ""
          ∨ (none : Option String) = some "E")
        → lo = 2 + 0 / 60 + 0 / 3600) :=
  decode_sign_policy
    ⟨some [Comp.num 1, Comp.num 0, Comp.num 0],
      some [Comp.num 2, Comp.num 0, Comp.num 0], some "S", none⟩
    [Comp.num 1, Comp.num 0, Comp.num 0] [Comp.num 2, Comp.num 0, Comp.num 0]
    (1 + 0 / 60 + 0 / 3600) (2 + 0 / 60 + 0 / 3600)
    rfl (by simp [convert_to_degrees, _to_float])
    rfl (by simp [convert_to_degrees, _to_float])

/-- Counterexample to C3 as stated: a present but empty
`GPSLatitudeRef` is "present and not `"N"`", yet the code's truthiness
test skips the negation — the latitude comes back as `+1`, not `-1`. -/
theorem decode_sign_policy_cex :
    (some "" : Option String) ≠ none ∧ ("" : String) ≠ "N" ∧
    get_lat_lon ⟨some ⟨some [Comp.num 1, Comp.num 0, Comp.num 0],
        some [Comp.num 2, Comp.num 0, Comp.num 0], some "", some "E"⟩⟩
      = some (1, 2) ∧ (1 : ℚ) ≠ -1 := by
  refine ⟨by simp, by simp, ?_, by norm_num⟩
  norm_num [get_lat_lon, convert_to_degrees, _to_float, ref_negates]

/-- C2 as amended: every upload with a non-empty selected path appends
exactly one record whose `path` is that (non-empty) path and whose
`name` is `basename(path)` — which can be empty when the path ends in
a separator — and a Located record carries the decoder's coordinates
and the geocoder's address unvalidated: no range check constrains them
to [-90, 90] × [-180, 180]. -/
theorem upload_image_appends (fp : String) (e : ExifData) (resp : GeoResponse)
    (s : Store) (hfp : fp ≠ "") :
    ∃ r : Record, (upload_image fp e resp s).history = s.history ++ [r] ∧
      r.path = fp ∧ r.name = basename fp ∧
      (get_lat_lon e = none →
        r = Record.unlocated (basename fp) fp NO_GPS_REASON_TEXT) ∧
      (∀ lat lon, get_lat_lon e = some (lat, lon) →
        r = Record.located (basename fp) fp lat lon (get_address resp)) := by
  cases hg : get_lat_lon e with
  | none =>
    refine ⟨Record.unlocated (basename fp) fp NO_GPS_REASON_TEXT,
      ?_, rfl, rfl, fun _ => rfl, ?_⟩
    · simp [upload_image, hfp, hg, append_record, save_history]
    · intro lat lon hsome
      simp at hsome
  | some p =>
    obtain ⟨lat0, lon0⟩ := p
    refine ⟨Record.located (basename fp) fp lat0 lon0 (get_address resp),
      ?_, rfl, rfl, ?_, ?_⟩
    · simp [upload_image, hfp, hg, append_record, save_history]
    · intro hnone
      simp at hnone
    · intro lat lon hsome
      simp only [Option.some.injEq, Prod.mk.injEq] at hsome
      rw [hsome.1, hsome.2]

/-- Witness for C2: uploading a GPS-less image at `/a/b.jpg` appends
the unlocated record named `b.jpg`. -/
theorem upload_image_appends_witness :
    ∃ r : Record,
      (upload_image "/a/b.jpg" ⟨none⟩ GeoResponse.netError
          ⟨[], JsonDoc.absent⟩).history = [] ++ [r] ∧
      r.path = "/a/b.jpg" ∧ r.name = basename "/a/b.jpg" ∧
      (get_lat_lon ⟨none⟩ = none →
        r = Record.unlocated (basename "/a/b.jpg") "/a/b.jpg" NO_GPS_REASON_TEXT) ∧
      (∀ lat lon, get_lat_lon ⟨none⟩ = some (lat, lon) →
        r = Record.located (basename "/a/b.jpg") "/a/b.jpg" lat lon
          (get_address GeoResponse.netError)) :=
  upload_image_appends "/a/b.jpg" ⟨none⟩ GeoResponse.netError
    ⟨[], JsonDoc.absent⟩ (by decide)

/-- Counterexample to C2 as stated: EXIF metadata is arbitrary input,
and a triple `(500, 0, 0)` decodes to latitude 500 with no validation,
so the appended Located record has latitude outside [-90, 90]; with
the selected path ending in a separator, its `name` is moreover the
empty string. -/
theorem upload_image_cex :
    (upload_image "/tmp/" ⟨some ⟨some [Comp.num 500, Comp.num 0, Comp.num 0],
        some [Comp.num 10, Comp.num 0, Comp.num 0], none, none⟩⟩
      GeoResponse.netError ⟨[], JsonDoc.absent⟩).history
      = [Record.located "" "/tmp/" 500 10 ADDRESS_NOT_FOUND] ∧
    (Record.located "" "/tmp/" 500 10 ADDRESS_NOT_FOUND).name = "" ∧
    ¬ ((500 : ℚ) ≤ 90) := by
  have hb : basename "/tmp/" = "" := by decide
  have hne : ("/tmp/" : String) ≠ "" := by decide
  refine ⟨?_, rfl, by norm_num⟩
  norm_num [upload_image, get_lat_lon, convert_to_degrees, _to_float,
    ref_negates, append_record, save_history, get_address, hb, hne]

